import Mathlib

/-!
Verification of the randomapi client library (randomapi.py, localrpc.py):
a shallow embedding of the request composer and the stateful
`RandomJSONRPC` client, with theorems about request composition,
advisory-delay throttling, error surfacing and signature verification.

JSON values are modelled with objects as ordered association lists, which
matches the `OrderedDict` decoding (`json_to_ordered_dict`) used by the
source to preserve key insertion order for signed data.  Machine floats
used for times and delays are modelled as rationals; wall-clock readings
(`time.time()`) and the fresh UUID are passed in as explicit parameters.
The HTTP transport is an explicit parameter of `send_request`: `.error ()`
models a transport failure (an exception raised by `urllib2.urlopen`),
`.ok jd` models a 2xx response whose body parses to the JSON value `jd`.
-/

/-- A JSON value.  Objects are ordered lists of key/value pairs, so field
order is part of the value, exactly as in the `OrderedDict`s the source
decodes responses into. -/
inductive Json where
  | null : Json
  | bool (b : Bool) : Json
  | num (q : ℚ) : Json
  | str (s : String) : Json
  | arr (elems : List Json) : Json
  | obj (fields : List (String × Json)) : Json

/-- Python dictionary lookup `d[k]` / membership `k in d`, restricted to
JSON objects (the source only indexes decoded objects).  Returns the first
binding for the key; decoded `OrderedDict`s have unique keys. -/
def Json.lookup : Json → String → Option Json
  | .obj fields, k => List.lookup k fields
  | _, _ => none

/-- Python truthiness (`if not x`) of a JSON value: `None`, `False`, `0`,
`""`, `[]` and an empty object are falsy, everything else truthy. -/
def Json.truthy : Json → Bool
  | .null => false
  | .bool b => b
  | .num q => decide (q ≠ 0)
  | .str s => decide (s ≠ "")
  | .arr elems => !elems.isEmpty
  | .obj fields => !fields.isEmpty

mutual

/-- A JSON serializer over the ordered model, used to state that equal
ordered values re-serialize to byte-identical text (`json.dumps` emits an
`OrderedDict`'s fields in insertion order). -/
def Json.dumps : Json → String
  | .null => "null"
  | .bool true => "true"
  | .bool false => "false"
  | .num q => toString q
  | .str s => "\"" ++ s ++ "\""
  | .arr elems => "[" ++ Json.dumpsArr elems ++ "]"
  | .obj fields => "\x7b" ++ Json.dumpsObj fields ++ "\x7d"

/-- Serialize the elements of a JSON array, comma separated. -/
def Json.dumpsArr : List Json → String
  | [] => ""
  | [v] => Json.dumps v
  | v :: rest => Json.dumps v ++ ", " ++ Json.dumpsArr rest

/-- Serialize the fields of a JSON object in list (= insertion) order. -/
def Json.dumpsObj : List (String × Json) → String
  | [] => ""
  | [(k, v)] => "\"" ++ k ++ "\": " ++ Json.dumps v
  | (k, v) :: rest => "\"" ++ k ++ "\": " ++ Json.dumps v ++ ", " ++ Json.dumpsObj rest

end

/-- Python dictionary assignment `d[k] = v` on the ordered model: replace
the first binding of `k` if present, else append the new binding. -/
def dictInsert (k : String) (v : Json) : List (String × Json) → List (String × Json)
  | [] => [(k, v)]
  | (k', v') :: rest =>
      if k' = k then (k, v) :: rest else (k', v') :: dictInsert k v rest

/-! RANDOM.org API method-name constants, verbatim from randomapi.py.
Note that `SIGNED_DECIMAL_METHOD` is bound to the string
`"generateDecimalFractions"` in the source (randomapi.py line 53), not to
`"generateSignedDecimalFractions"`. -/

def INTEGER_METHOD : String := "generateIntegers"

def DECIMAL_METHOD : String := "generateDecimalFractions"

def GAUSSIAN_METHOD : String := "generateGaussians"

def STRING_METHOD : String := "generateStrings"

def UUID_METHOD : String := "generateUUIDs"

def BLOB_METHOD : String := "generateBlobs"

def USAGE_METHOD : String := "getUsage"

def SIGNED_INTEGER_METHOD : String := "generateSignedIntegers"

def SIGNED_DECIMAL_METHOD : String := "generateDecimalFractions"

def SIGNED_GAUSSIAN_METHOD : String := "generateSignedGaussians"

def SIGNED_STRING_METHOD : String := "generateSignedStrings"

def SIGNED_UUID_METHOD : String := "generateSignedUUIDs"

def SIGNED_BLOB_METHOD : String := "generateSignedBlobs"

def VERIFY_SIGNATURE_METHOD : String := "verifySignature"

/-- `valid_json_methods()` from randomapi.py: the method whitelist checked
by `compose_api_call`. -/
def valid_json_methods : List String :=
  [INTEGER_METHOD, DECIMAL_METHOD, GAUSSIAN_METHOD, STRING_METHOD,
   UUID_METHOD, BLOB_METHOD, USAGE_METHOD, SIGNED_INTEGER_METHOD,
   SIGNED_BLOB_METHOD, SIGNED_DECIMAL_METHOD, SIGNED_GAUSSIAN_METHOD,
   SIGNED_STRING_METHOD, SIGNED_UUID_METHOD, VERIFY_SIGNATURE_METHOD]

/-- The error kinds the client can raise.  The source raises bare
`Exception`s at distinct sites; we tag each site.  `remoteError` carries
the JSON values found at `error["code"]` and `error["message"]`;
`keyError` models the `KeyError` Python raises when the error object
lacks one of those fields. -/
inductive RpcError where
  | invalidMethod (name : String) : RpcError
  | remoteError (code message : Json) : RpcError
  | keyError : RpcError
  | transportError : RpcError
  | verificationUnavailable : RpcError

/-- A composed JSON-RPC request, the dictionary built by
`compose_api_call` (randomapi.py lines 127-132) before `json.dumps`. -/
structure Request where
  method : String
  id : String
  jsonrpc : String
  params : Json

/-- The params construction of `compose_api_call` (randomapi.py lines
120-125, identical to `create_request_dict` in localrpc.py): if keyword
arguments are present they become the parameter mapping, with any
positional arguments stored under the reserved key `"__args"`; otherwise
the positional arguments are the params, as a sequence. -/
def compose_params (args : List Json) (kwargs : List (String × Json)) : Json :=
  if kwargs.isEmpty then .arr args
  else if args.isEmpty then .obj kwargs
  else .obj (dictInsert "__args" (.arr args) kwargs)

/-- `compose_api_call` from randomapi.py: rejects method names outside
`valid_json_methods`, otherwise builds the request with a fresh id
(passed in, modelling `uuid.uuid4()`) and protocol version "2.0". -/
def compose_api_call (json_method_name : String) (args : List Json)
    (kwargs : List (String × Json)) (fresh_id : String) : Except RpcError Request :=
  if json_method_name ∈ valid_json_methods then
    .ok { method := json_method_name, id := fresh_id, jsonrpc := "2.0",
          params := compose_params args kwargs }
  else
    .error (.invalidMethod json_method_name)

/-- The full mutable attribute set of a `RandomJSONRPC` instance once its
data attributes exist — that is, any client from its first `send_request`
on, since `_refresh` assigns `_json_data`, `_result`, `_random` and
`_signature` at the top of every `send_request`.  (A client fresh out of
`__init__` lacks those four attributes; see `FreshState`.) -/
structure RandomState where
  api_key : String
  time_of_last_request : ℚ
  advisory_delay : ℚ
  json_data : Json
  result : Json
  random : Json
  signature : Json

/-- The attributes `RandomJSONRPC.__init__` (randomapi.py lines 166-168)
actually assigns: the API key and the zeroed throttle state.  The data
attributes `_json_data`, `_result`, `_random` and `_signature` are NOT
assigned by `__init__`; they first come into existence when the first
`send_request` runs `_refresh`.  Reading one of them on a fresh client
raises `AttributeError` in Python. -/
structure FreshState where
  api_key : String
  time_of_last_request : ℚ
  advisory_delay : ℚ

/-- `RandomJSONRPC.__init__`: stores the API key and zeroes the throttle
state; nothing else is assigned (randomapi.py lines 166-168). -/
def RandomJSONRPC_init (api_key : String) : FreshState :=
  { api_key := api_key, time_of_last_request := 0, advisory_delay := 0 }

/-- A concrete full client state used in witnesses: API key stored,
throttle state zeroed as by `__init__`, and the data attributes holding
the values `_refresh` assigns on entry to every `send_request`. -/
def refreshed_client (api_key : String) : RandomState :=
  { api_key := api_key, time_of_last_request := 0, advisory_delay := 0,
    json_data := .obj [], result := .obj [], random := .arr [],
    signature := .str "" }

/-- `RandomJSONRPC._refresh`: wipes the data of the previous request
(`_json_data = {}`, `_result = {}`, `_random = []`, `_signature = ""`).
It does not touch `_advisory_delay` or `_time_of_last_request`. -/
def refresh (s : RandomState) : RandomState :=
  { s with json_data := .obj [], result := .obj [], random := .arr [],
           signature := .str "" }

/-- `RandomJSONRPC._populate` (randomapi.py lines 176-184): copies
`result` out of the parsed response, then, when present in the result,
the advisory delay (milliseconds divided by 1000), the random object and
the signature.  `float()` is modelled on numeric delays only; the source
would raise on a non-numeric delay value. -/
def populate (s : RandomState) : RandomState :=
  let s1 := match s.json_data.lookup "result" with
    | some r => { s with result := r }
    | none => s
  let s2 := match s1.result.lookup "advisoryDelay" with
    | some (.num q) => { s1 with advisory_delay := q / 1000 }
    | _ => s1
  let s3 := match s2.result.lookup "random" with
    | some r => { s2 with random := r }
    | none => s2
  match s3.result.lookup "signature" with
  | some sig => { s3 with signature := sig }
  | none => s3

/-- `RandomJSONRPC.delay_request` (randomapi.py lines 186-193), as the
number of seconds slept: with `remaining = requested_delay - elapsed`,
the source sleeps for `remaining` seconds when `remaining - elapsed > 0`
and otherwise does not sleep (result 0).  Note the guard really is
`remaining - elapsed > 0`, not `remaining > 0`. -/
def delay_request (requested_delay elapsed : ℚ) : ℚ :=
  let remaining_time := requested_delay - elapsed
  if remaining_time - elapsed > 0 then remaining_time else 0

/-- `RandomJSONRPC.check_errors` (randomapi.py lines 195-202): raises a
remote error carrying `error["code"]` and `error["message"]` when the
parsed response has an `error` field. -/
def check_errors (json_data : Json) : Except RpcError Unit :=
  match json_data.lookup "error" with
  | none => .ok ()
  | some e =>
    match e.lookup "code", e.lookup "message" with
    | some code, some message => .error (.remoteError code message)
    | _, _ => .error .keyError

/-- Result of one `send_request` attempt: the post-state, the seconds
slept by the throttle, and the outcome (`.ok` or the raised error). -/
structure SendOutcome where
  state : RandomState
  slept : ℚ
  outcome : Except RpcError Unit

/-- The first-request timestamp initialization of `send_request`
(randomapi.py lines 211-212): on the first ever request the last-request
time is set to the current time before dispatch. -/
def throttle_state (s : RandomState) (now : ℚ) : RandomState :=
  if s.time_of_last_request = 0 then { s with time_of_last_request := now }
  else s

/-- The throttle of `send_request` (randomapi.py lines 213-214): when a
positive advisory delay is pending, sleep for the duration computed by
`delay_request` from the elapsed time since the last request; otherwise
do not sleep (0 seconds). -/
def throttle_sleep (s : RandomState) (now : ℚ) : ℚ :=
  if s.advisory_delay > 0 then
    delay_request s.advisory_delay (now - s.time_of_last_request)
  else 0

/-- `RandomJSONRPC.send_request` (randomapi.py lines 204-224).  `now` is
the wall clock when the request starts, `now2` the wall clock read right
after the HTTP call returns; `transport` is the HTTP exchange: `.error ()`
a transport failure, `.ok jd` a response body parsed (order-preserving)
to `jd`.  Steps, in source order: refresh; initialize the last-request
time on a first request; throttle when a positive advisory delay is
pending; perform the HTTP call (a transport failure propagates before
the timestamp update); record the new last-request time; parse; check
for a server error; populate.  The case split on the transport outcome is
hoisted over the (outcome-independent) throttle steps. -/
def send_request (s : RandomState) (now now2 : ℚ)
    (transport : Except Unit Json) : SendOutcome :=
  match transport with
  | .error _ =>
      { state := throttle_state (refresh s) now,
        slept := throttle_sleep (throttle_state (refresh s) now) now,
        outcome := .error .transportError }
  | .ok jd =>
      match check_errors jd with
      | .error e =>
          { state := { throttle_state (refresh s) now with
                       time_of_last_request := now2, json_data := jd },
            slept := throttle_sleep (throttle_state (refresh s) now) now,
            outcome := .error e }
      | .ok _ =>
          { state := populate { throttle_state (refresh s) now with
                                time_of_last_request := now2, json_data := jd },
            slept := throttle_sleep (throttle_state (refresh s) now) now,
            outcome := .ok () }

/-- Result of `verify_signature`: the post-state, the verification
request that was composed and sent (if any), and the returned value —
`.ok none` is Python's `None` sentinel, `.ok (some a)` the authenticity
value, `.error` a raised exception. -/
structure VerifyOutcome where
  state : RandomState
  request : Option Request
  result : Except RpcError (Option Json)

/-- The authenticity check at the end of `RandomJSONRPC.verify_signature`
(randomapi.py lines 329-332): after the verification request succeeds,
return `result["authenticity"]` when present, else raise. -/
def verify_result_of (s' : RandomState) (q : Request) : VerifyOutcome :=
  match s'.result.lookup "authenticity" with
  | some a => { state := s', request := some q, result := .ok (some a) }
  | none => { state := s', request := some q,
              result := .error .verificationUnavailable }

/-- `RandomJSONRPC.verify_signature` (randomapi.py lines 316-332),
continued: if no signature is held (`not self._signature`), return `None`
without sending anything; otherwise compose a `verifySignature` request
whose keyword arguments are the held random object and signature, send
it, and return `result["authenticity"]` when present, else raise
(`verify_result_of` above handles the post-send step). -/
def verify_signature (s : RandomState) (fresh_id : String) (now now2 : ℚ)
    (transport : Except Unit Json) : VerifyOutcome :=
  if s.signature.truthy = false then
    { state := s, request := none, result := .ok none }
  else
    match compose_api_call VERIFY_SIGNATURE_METHOD []
        [("random", s.random), ("signature", s.signature)] fresh_id with
    | .error e => { state := s, request := none, result := .error e }
    | .ok q =>
      match (send_request s now now2 transport).outcome with
      | .error e => { state := (send_request s now now2 transport).state,
                      request := some q, result := .error e }
      | .ok _ => verify_result_of (send_request s now now2 transport).state q

/-- A Python runtime error raised by attribute access: reading an
attribute that was never assigned on the instance. -/
inductive PyError where
  | attributeError (name : String) : PyError

/-- A `RandomJSONRPC` instance as Python sees it: either fresh (only the
three `__init__` attributes exist) or with the data attributes assigned
(every client from its first `send_request` on, since `_refresh` assigns
all four at the top of `send_request`). -/
inductive ClientState where
  | fresh (s : FreshState) : ClientState
  | ready (s : RandomState) : ClientState

/-- `RandomJSONRPC.verify_signature` including its very first attribute
read: the method begins with `if not self._signature` (randomapi.py line
320), and on a fresh client — `__init__` assigns no `_signature`
(lines 166-168); only `_refresh`/`_populate` do — that read raises
`AttributeError` before anything is composed or sent.  On a client whose
attributes exist, the method proceeds as `verify_signature`. -/
def verify_signature_client : ClientState → String → ℚ → ℚ →
    Except Unit Json → Except PyError VerifyOutcome
  | .fresh _, _, _, _, _ => .error (.attributeError "_signature")
  | .ready s, fresh_id, now, now2, t =>
      .ok (verify_signature s fresh_id now now2 t)

/-- The request composed by `RandomJSONRPC.generate_decimal_fractions`
(randomapi.py lines 238-242), as a function of the client's API key, the
arguments and the fresh request id. -/
def generate_decimal_fractions_request (api_key : String) (n decimal_places : ℚ)
    (replacement : Bool) (fresh_id : String) : Except RpcError Request :=
  compose_api_call DECIMAL_METHOD []
    [("apiKey", .str api_key), ("n", .num n),
     ("decimalPlaces", .num decimal_places), ("replacement", .bool replacement)]
    fresh_id

/-- The request composed by
`RandomJSONRPC.generate_signed_decimal_fractions` (randomapi.py lines
283-288), which uses `SIGNED_DECIMAL_METHOD` and the same keyword
arguments as the unsigned variant. -/
def generate_signed_decimal_fractions_request (api_key : String)
    (n decimal_places : ℚ) (replacement : Bool) (fresh_id : String) :
    Except RpcError Request :=
  compose_api_call SIGNED_DECIMAL_METHOD []
    [("apiKey", .str api_key), ("n", .num n),
     ("decimalPlaces", .num decimal_places), ("replacement", .bool replacement)]
    fresh_id

/-! Theorems -/

/-! Projection facts for the throttle step: it only ever touches the
last-request timestamp. -/

@[simp] theorem throttle_state_api_key (s : RandomState) (now : ℚ) :
    (throttle_state s now).api_key = s.api_key := by
  unfold throttle_state; split <;> rfl

@[simp] theorem throttle_state_advisory_delay (s : RandomState) (now : ℚ) :
    (throttle_state s now).advisory_delay = s.advisory_delay := by
  unfold throttle_state; split <;> rfl

@[simp] theorem throttle_state_json_data (s : RandomState) (now : ℚ) :
    (throttle_state s now).json_data = s.json_data := by
  unfold throttle_state; split <;> rfl

@[simp] theorem throttle_state_result (s : RandomState) (now : ℚ) :
    (throttle_state s now).result = s.result := by
  unfold throttle_state; split <;> rfl

@[simp] theorem throttle_state_random (s : RandomState) (now : ℚ) :
    (throttle_state s now).random = s.random := by
  unfold throttle_state; split <;> rfl

@[simp] theorem throttle_state_signature (s : RandomState) (now : ℚ) :
    (throttle_state s now).signature = s.signature := by
  unfold throttle_state; split <;> rfl

@[simp] theorem throttle_state_time (s : RandomState) (now : ℚ) :
    (throttle_state s now).time_of_last_request =
      (if s.time_of_last_request = 0 then now else s.time_of_last_request) := by
  unfold throttle_state
  split <;> simp [*]


/-- C1: the spec's 14-name whitelist does not match the code.  Because
randomapi.py line 53 binds `SIGNED_DECIMAL_METHOD` to
`"generateDecimalFractions"`, the name `"generateSignedDecimalFractions"`
is not in `valid_json_methods`, and composing a request for it fails with
InvalidMethod even though the claim lists it among the whitelisted
methods. -/
theorem compose_rejects_generateSignedDecimalFractions :
    compose_api_call "generateSignedDecimalFractions" [] [] "id-0" =
      .error (.invalidMethod "generateSignedDecimalFractions") ∧
    "generateSignedDecimalFractions" ∉ valid_json_methods ∧
    SIGNED_DECIMAL_METHOD = DECIMAL_METHOD := by
  refine ⟨?_, by decide, rfl⟩
  rfl

/-- C2: the throttle does not sleep for max(0, delay − elapsed).  With a
pending delay of 2.5 s and 1.5 s elapsed, max(0, delay − elapsed) = 1,
but `delay_request` sleeps 0 seconds because its guard is
`remaining − elapsed > 0` (randomapi.py line 192), not `remaining > 0`. -/
theorem delay_request_skips_pending_sleep :
    delay_request (5/2) (3/2) = 0 ∧ max (0 : ℚ) (5/2 - 3/2) = 1 := by
  constructor
  · norm_num [delay_request]
  · norm_num

/-- C10: `generate_signed_decimal_fractions` composes exactly the request
`generate_decimal_fractions` composes for the same arguments and id; in
particular both requests carry the wire method name
"generateDecimalFractions", so the signed variant requests the unsigned
remote method. -/
theorem signed_decimal_request_eq_unsigned (api_key : String)
    (n decimal_places : ℚ) (replacement : Bool) (fresh_id : String) :
    generate_signed_decimal_fractions_request api_key n decimal_places
        replacement fresh_id =
      generate_decimal_fractions_request api_key n decimal_places
        replacement fresh_id ∧
    generate_signed_decimal_fractions_request api_key n decimal_places
        replacement fresh_id =
      .ok { method := "generateDecimalFractions", id := fresh_id,
            jsonrpc := "2.0",
            params := .obj [("apiKey", .str api_key), ("n", .num n),
                            ("decimalPlaces", .num decimal_places),
                            ("replacement", .bool replacement)] } :=
  ⟨rfl, rfl⟩

/-- C9: the throttle sleep is never negative and never exceeds
max(0, delay − elapsed): `delay_request` either sleeps
`delay − elapsed` (only when that is positive) or does not sleep. -/
theorem delay_request_sleep_bounded (d e : ℚ) (hd : 0 < d) (_he : 0 ≤ e) :
    0 ≤ delay_request d e ∧ delay_request d e ≤ max 0 (d - e) := by
  unfold delay_request
  dsimp only
  split
  · rename_i h
    exact ⟨by linarith, le_max_right 0 (d - e)⟩
  · exact ⟨le_refl 0, le_max_left 0 (d - e)⟩

/-- Witness for C9 at delay 3, elapsed 1. -/
theorem delay_request_sleep_bounded_witness :
    0 ≤ delay_request 3 1 ∧ delay_request 3 1 ≤ max 0 ((3 : ℚ) - 1) :=
  delay_request_sleep_bounded 3 1 (by norm_num) (by norm_num)

/-- C7 counterexample: on a freshly constructed client that has never
sent a request, `verify_signature` does not return the `None` sentinel —
its first statement `if not self._signature` reads an attribute
`__init__` never assigned, so the call raises AttributeError. -/
theorem verify_signature_fresh_raises :
    verify_signature_client (ClientState.fresh (RandomJSONRPC_init "key"))
        "id-1" 0 0 (.error ()) =
      .error (.attributeError "_signature") := rfl

/-- C7 (amended): on any client whose data attributes exist — every
client from its first `send_request` on — calling `verify_signature`
with no (falsy) signature held returns the `None` sentinel: no request
is composed or sent, nothing is raised and the state is unchanged.  On a
fresh client that never sent a request, the initial `self._signature`
read raises AttributeError instead (see the counterexample). -/
theorem verify_signature_no_signature_noop (s : RandomState) (fresh_id : String)
    (now now2 : ℚ) (t : Except Unit Json) (h : s.signature.truthy = false) :
    verify_signature_client (ClientState.ready s) fresh_id now now2 t =
      .ok { state := s, request := none, result := .ok none } := by
  show Except.ok (verify_signature s fresh_id now now2 t) = _
  unfold verify_signature
  rw [h]
  simp

/-- Witness for C7 (amended) on a client holding the empty (falsy)
signature string `_refresh` assigns. -/
theorem verify_signature_no_signature_noop_witness :
    verify_signature_client (ClientState.ready (refreshed_client "key"))
        "id-1" 0 0 (.error ()) =
      .ok { state := refreshed_client "key", request := none,
            result := .ok none } :=
  verify_signature_no_signature_noop (refreshed_client "key") "id-1" 0 0
    (.error ()) rfl

/-- Inserting a fresh key into a dictionary appends it: `d[k] = v` on a
dictionary whose keys avoid `k` adds the binding at the end. -/
theorem dictInsert_eq_append (k : String) (v : Json)
    (l : List (String × Json)) (h : k ∉ l.map Prod.fst) :
    dictInsert k v l = l ++ [(k, v)] := by
  induction l with
  | nil => rfl
  | cons p rest ih =>
    obtain ⟨k', v'⟩ := p
    simp only [List.map_cons, List.mem_cons] at h
    push_neg at h
    obtain ⟨h1, h2⟩ := h
    unfold dictInsert
    rw [if_neg fun hh => h1 hh.symm, ih h2]
    rfl

/-- C5: for every whitelisted method name, the composed request carries
protocol version "2.0", the given id, and params equal to the keyword
arguments (as a mapping, with the positional arguments appended under the
reserved key `"__args"` when both are present) when keyword arguments are
present, else the positional arguments as a sequence.  (The reserved key
is assumed not to be passed as a keyword argument itself;
`params["__args"] = args` would overwrite such a binding.) -/
theorem compose_api_call_params_spec (m : String) (args : List Json)
    (kwargs : List (String × Json)) (fresh_id : String)
    (hm : m ∈ valid_json_methods)
    (hk : "__args" ∉ kwargs.map Prod.fst) :
    (kwargs = [] →
      compose_api_call m args kwargs fresh_id =
        .ok { method := m, id := fresh_id, jsonrpc := "2.0",
              params := Json.arr args }) ∧
    (kwargs ≠ [] → args = [] →
      compose_api_call m args kwargs fresh_id =
        .ok { method := m, id := fresh_id, jsonrpc := "2.0",
              params := Json.obj kwargs }) ∧
    (kwargs ≠ [] → args ≠ [] →
      compose_api_call m args kwargs fresh_id =
        .ok { method := m, id := fresh_id, jsonrpc := "2.0",
              params := Json.obj (kwargs ++ [("__args", Json.arr args)]) }) := by
  unfold compose_api_call compose_params
  rw [if_pos hm]
  refine ⟨?_, ?_, ?_⟩
  · intro hkw; subst hkw; simp
  · intro hkw ha; subst ha
    rcases kwargs with _ | ⟨p, rest⟩
    · exact absurd rfl hkw
    · simp
  · intro hkw ha
    rcases kwargs with _ | ⟨p, rest⟩
    · exact absurd rfl hkw
    · rcases args with _ | ⟨a, rest2⟩
      · exact absurd rfl ha
      · simp only [List.isEmpty_cons, List.isEmpty_nil]
        rw [dictInsert_eq_append _ _ _ hk]
        simp

/-- Witness for C5: a valid method with one positional and one named
argument; params is the named argument plus the positional argument under
the reserved key. -/
theorem compose_api_call_params_spec_witness :
    compose_api_call "getUsage" [Json.num 1] [("apiKey", Json.str "k")] "id-2" =
      .ok { method := "getUsage", id := "id-2", jsonrpc := "2.0",
            params := Json.obj [("apiKey", Json.str "k"),
                                ("__args", Json.arr [Json.num 1])] } :=
  (compose_api_call_params_spec "getUsage" [Json.num 1]
      [("apiKey", Json.str "k")] "id-2" (by decide) (by decide)).2.2
    (by simp) (by simp)

/-- `_populate` on a state whose parsed response has a `result` object
with `random` and `signature` fields stores exactly those two values. -/
theorem populate_fields (s : RandomState) (res r sig : Json)
    (h1 : s.json_data.lookup "result" = some res)
    (hr : res.lookup "random" = some r)
    (hsig : res.lookup "signature" = some sig) :
    (populate s).random = r ∧ (populate s).signature = sig := by
  rcases had : res.lookup "advisoryDelay" with _ | v
  · simp only [populate, h1, had, hr, hsig]
    exact ⟨trivial, trivial⟩
  · cases v <;> simp only [populate, h1, had, hr, hsig] <;> exact ⟨trivial, trivial⟩

/-- C6: a response carrying an `error` object with `code` and `message`
makes `send_request` fail with a remote error carrying exactly those two
values, and the random data stays at its wiped value `[]` — `_populate`
is never reached, so no data is handed to the caller. -/
theorem send_request_remote_error (s : RandomState) (now now2 : ℚ)
    (jd e c msg : Json)
    (he : jd.lookup "error" = some e)
    (hc : e.lookup "code" = some c)
    (hm : e.lookup "message" = some msg) :
    (send_request s now now2 (.ok jd)).outcome =
      .error (.remoteError c msg) ∧
    (send_request s now now2 (.ok jd)).state.random = Json.arr [] := by
  have hce : check_errors jd = .error (.remoteError c msg) := by
    unfold check_errors
    simp only [he, hc, hm]
  refine ⟨?_, ?_⟩ <;> simp [send_request, hce, refresh]

/-- Witness for C6: a response with `error: {code: 401, message: "bad key"}`
fails with that code and message and returns no data. -/
theorem send_request_remote_error_witness :
    (send_request (refreshed_client "key") 0 1
        (.ok (Json.obj [("error", Json.obj [("code", Json.num 401),
                                            ("message", Json.str "bad key")])]))).outcome =
      .error (.remoteError (Json.num 401) (Json.str "bad key")) ∧
    (send_request (refreshed_client "key") 0 1
        (.ok (Json.obj [("error", Json.obj [("code", Json.num 401),
                                            ("message", Json.str "bad key")])]))).state.random =
      Json.arr [] :=
  send_request_remote_error (refreshed_client "key") 0 1
    (Json.obj [("error", Json.obj [("code", Json.num 401),
                                   ("message", Json.str "bad key")])])
    (Json.obj [("code", Json.num 401), ("message", Json.str "bad key")])
    (Json.num 401) (Json.str "bad key") rfl rfl rfl

/-- C3 (amended): on every failed request — transport failure or server
error response — the pending advisory delay is left untouched, but the
last parsed result, random data and signature are cleared at the start of
the attempt by `_refresh` (regardless of outcome), and the last-request
timestamp is updated only when a response was received: on a server error
response it becomes the post-dispatch time, while on a transport failure
it keeps its prior value (after first-request initialization). -/
theorem failed_request_state (s : RandomState) (now now2 : ℚ)
    (t : Except Unit Json) (err : RpcError)
    (h : (send_request s now now2 t).outcome = .error err) :
    (send_request s now now2 t).state.advisory_delay = s.advisory_delay ∧
    (send_request s now now2 t).state.result = Json.obj [] ∧
    (send_request s now now2 t).state.random = Json.arr [] ∧
    (send_request s now now2 t).state.signature = Json.str "" ∧
    (t = .error () →
      (send_request s now now2 t).state.time_of_last_request =
        (if s.time_of_last_request = 0 then now else s.time_of_last_request)) ∧
    (∀ jd, t = .ok jd →
      (send_request s now now2 t).state.time_of_last_request = now2) := by
  cases t with
  | error u =>
    refine ⟨?_, ?_, ?_, ?_, fun _ => ?_, fun jd h' => ?_⟩ <;>
      simp_all [send_request, refresh]
  | ok jd =>
    rcases hce : check_errors jd with e | u
    · refine ⟨?_, ?_, ?_, ?_, fun h' => ?_, fun jd' h' => ?_⟩ <;>
      simp_all [send_request, refresh, hce]
    · simp [send_request, hce] at h

/-- C3 counterexample: with last-request time 5 and prior random data
[7], a transport-failed request at now = 10, now2 = 11 yields the
transport error, yet the prior random data has been wiped to [] (not
left untouched) and the last-request timestamp is still 5 (not updated
to the post-dispatch time 11). -/
theorem failed_request_state_counterexample :
    (send_request { api_key := "k", time_of_last_request := 5,
                    advisory_delay := 0, json_data := Json.obj [],
                    result := Json.obj [], random := Json.arr [Json.num 7],
                    signature := Json.str "sg" } 10 11 (.error ())).outcome =
      .error .transportError ∧
    (send_request { api_key := "k", time_of_last_request := 5,
                    advisory_delay := 0, json_data := Json.obj [],
                    result := Json.obj [], random := Json.arr [Json.num 7],
                    signature := Json.str "sg" } 10 11 (.error ())).state.random ≠
      Json.arr [Json.num 7] ∧
    (send_request { api_key := "k", time_of_last_request := 5,
                    advisory_delay := 0, json_data := Json.obj [],
                    result := Json.obj [], random := Json.arr [Json.num 7],
                    signature := Json.str "sg" } 10 11
        (.error ())).state.time_of_last_request = 5 ∧
    (5 : ℚ) ≠ 11 := by
  refine ⟨rfl, ?_, ?_, by norm_num⟩
  · simp [send_request, refresh]
  · norm_num [send_request, refresh]

/-- Witness for C3 (amended) on a first request that fails in transport. -/
theorem failed_request_state_witness :
    (send_request (refreshed_client "k") 3 4 (.error ())).state.advisory_delay =
      (refreshed_client "k").advisory_delay ∧
    (send_request (refreshed_client "k") 3 4 (.error ())).state.result =
      Json.obj [] ∧
    (send_request (refreshed_client "k") 3 4 (.error ())).state.random =
      Json.arr [] ∧
    (send_request (refreshed_client "k") 3 4 (.error ())).state.signature =
      Json.str "" ∧
    ((Except.error () : Except Unit Json) = .error () →
      (send_request (refreshed_client "k") 3 4
          (.error ())).state.time_of_last_request =
        (if (refreshed_client "k").time_of_last_request = 0 then 3
         else (refreshed_client "k").time_of_last_request)) ∧
    (∀ jd, (Except.error () : Except Unit Json) = .ok jd →
      (send_request (refreshed_client "k") 3 4
          (.error ())).state.time_of_last_request = 4) :=
  failed_request_state (refreshed_client "k") 3 4 (.error ())
    .transportError rfl

/-- C4: after a response whose result carries `random` and `signature`,
the verification request composed by `verify_signature` embeds exactly
the received random object and signature values in its params.  Objects
are ordered lists here, so equality of the embedded random value means
its fields re-serialize byte-for-byte in the received order, as the last
conjunct spells out at the serializer. -/
theorem verify_signature_embeds_received (s : RandomState)
    (now now2 now3 now4 : ℚ) (jd res r sig : Json) (fresh_id : String)
    (t2 : Except Unit Json)
    (hne : jd.lookup "error" = none)
    (hres : jd.lookup "result" = some res)
    (hr : res.lookup "random" = some r)
    (hsig : res.lookup "signature" = some sig)
    (htr : sig.truthy = true) :
    (verify_signature (send_request s now now2 (.ok jd)).state fresh_id
        now3 now4 t2).request =
      some { method := "verifySignature", id := fresh_id, jsonrpc := "2.0",
             params := Json.obj [("random", r), ("signature", sig)] } ∧
    Json.dumps (Json.obj [("random", r), ("signature", sig)]) =
      "\x7b" ++ ("\"random\": " ++ Json.dumps r ++ ", " ++
        ("\"signature\": " ++ Json.dumps sig)) ++ "\x7d" := by
  have hce : check_errors jd = .ok () := by
    unfold check_errors
    simp only [hne]
  have hfields : (send_request s now now2 (.ok jd)).state.random = r ∧
      (send_request s now now2 (.ok jd)).state.signature = sig := by
    simp only [send_request, hce]
    exact populate_fields _ res r sig hres hr hsig
  obtain ⟨hrand, hsg⟩ := hfields
  constructor
  · unfold verify_signature
    rw [hrand, hsg, htr]
    rw [if_neg (show ¬(true = false) by simp)]
    rw [show compose_api_call VERIFY_SIGNATURE_METHOD []
        [("random", r), ("signature", sig)] fresh_id =
        .ok { method := VERIFY_SIGNATURE_METHOD, id := fresh_id,
              jsonrpc := "2.0",
              params := Json.obj [("random", r), ("signature", sig)] }
        from rfl]
    dsimp only
    split
    · rfl
    · unfold verify_result_of
      split <;> rfl
  · rfl

/-- Witness for C4 on a concrete signed response. -/
theorem verify_signature_embeds_received_witness :
    (verify_signature
        (send_request (refreshed_client "k") 0 1
          (.ok (Json.obj [("result",
            Json.obj [("random", Json.obj [("data",
                        Json.arr [Json.num 1, Json.num 2])]),
                      ("signature", Json.str "sg")])]))).state
        "id-4" 1 2 (.error ())).request =
      some { method := "verifySignature", id := "id-4", jsonrpc := "2.0",
             params := Json.obj
               [("random", Json.obj [("data", Json.arr [Json.num 1, Json.num 2])]),
                ("signature", Json.str "sg")] } ∧
    Json.dumps (Json.obj
        [("random", Json.obj [("data", Json.arr [Json.num 1, Json.num 2])]),
         ("signature", Json.str "sg")]) =
      "\x7b" ++ ("\"random\": " ++
        Json.dumps (Json.obj [("data", Json.arr [Json.num 1, Json.num 2])]) ++
        ", " ++ ("\"signature\": " ++ Json.dumps (Json.str "sg"))) ++ "\x7d" :=
  verify_signature_embeds_received (refreshed_client "k") 0 1 1 2
    (Json.obj [("result",
      Json.obj [("random", Json.obj [("data", Json.arr [Json.num 1, Json.num 2])]),
                ("signature", Json.str "sg")])])
    (Json.obj [("random", Json.obj [("data", Json.arr [Json.num 1, Json.num 2])]),
               ("signature", Json.str "sg")])
    (Json.obj [("data", Json.arr [Json.num 1, Json.num 2])])
    (Json.str "sg") "id-4" (.error ()) rfl rfl rfl rfl rfl

/-- C8: when a signature is held, `verify_signature` sends the composed
verification request; if the populated result carries an `authenticity`
field its value is returned, and otherwise the call fails with the
verification-unavailable error. -/
theorem verify_signature_authenticity (s : RandomState) (fresh_id : String)
    (now now2 : ℚ) (t : Except Unit Json)
    (htr : s.signature.truthy = true)
    (hok : (send_request s now now2 t).outcome = .ok ()) :
    (verify_signature s fresh_id now now2 t).request =
      some { method := "verifySignature", id := fresh_id, jsonrpc := "2.0",
             params := Json.obj [("random", s.random),
                                 ("signature", s.signature)] } ∧
    (∀ a, (send_request s now now2 t).state.result.lookup "authenticity" =
        some a →
      (verify_signature s fresh_id now now2 t).result = .ok (some a)) ∧
    ((send_request s now now2 t).state.result.lookup "authenticity" = none →
      (verify_signature s fresh_id now now2 t).result =
        .error .verificationUnavailable) := by
  unfold verify_signature
  rw [htr]
  rw [if_neg (show ¬(true = false) by simp)]
  rw [show compose_api_call VERIFY_SIGNATURE_METHOD []
      [("random", s.random), ("signature", s.signature)] fresh_id =
      .ok { method := VERIFY_SIGNATURE_METHOD, id := fresh_id,
            jsonrpc := "2.0",
            params := Json.obj [("random", s.random),
                                ("signature", s.signature)] }
      from rfl]
  rw [hok]
  dsimp only
  refine ⟨?_, fun a ha => ?_, fun hn => ?_⟩
  · unfold verify_result_of
    split <;> rfl
  · unfold verify_result_of
    rw [ha]
  · unfold verify_result_of
    rw [hn]

/-- Witness for C8: a verification response whose result carries
`authenticity: true` returns that flag. -/
theorem verify_signature_authenticity_witness :
    (verify_signature
        { api_key := "k", time_of_last_request := 5, advisory_delay := 0,
          json_data := Json.obj [], result := Json.obj [],
          random := Json.arr [], signature := Json.str "sg" }
        "id-5" 5 6
        (.ok (Json.obj [("result",
          Json.obj [("authenticity", Json.bool true)])]))).result =
      .ok (some (Json.bool true)) :=
  (verify_signature_authenticity
      { api_key := "k", time_of_last_request := 5, advisory_delay := 0,
        json_data := Json.obj [], result := Json.obj [],
        random := Json.arr [], signature := Json.str "sg" }
      "id-5" 5 6
      (.ok (Json.obj [("result",
        Json.obj [("authenticity", Json.bool true)])])) rfl rfl).2.1
    (Json.bool true) rfl
